import Mathlib

/-!
Verification development for the linkbuilder repository (a Rust CLI client for the
CivicEngage Document Center REST API).  The Rust data model and the pure content of
its operations are shallowly embedded below: structs become structures, `Option<T>`
becomes `Option`, `i32` ids become `Int` (no arithmetic is performed on them),
`f64` sizes become `ℚ` (the example values in the claims are dyadic and exact),
fallible code returns `Except`, and Rust panics are modelled by a dedicated
`RunResult.panicked` constructor.  HTTP transport is outside the embedding: the
response a call receives is passed in as an explicit `Response` value and the code
that dispatches on its status is translated verbatim.
-/

namespace LinkBuilder

/-- Model of the `LinkError` enum from src/error.rs.  Variants wrapping foreign
library errors (reqwest, std::io, std::env, serde_json, byte_unit) carry no data
the claims depend on and are modelled as plain constructors. -/
inductive LinkError where
  | UserBuildError (value : List String)
  | BuildError
  | HttpError
  | IoError
  | EnvError
  | AuthError
  | JsonError
  | ByteError
deriving DecidableEq, Repr

/-- Model of the `Folder` struct from src/document.rs (vendor record for a
Document Center folder): every field is carried so that frame conditions are
meaningful. -/
structure Folder where
  id : Option Int
  description : Option String
  status : Option Int
  path : Option String
  name : String
  parent_id : Option Int
  created_date : Option String
  created_by : Option Int
  last_modified_date : Option String
  modified_by : Option Int
  is_archived : Option Bool
  show_archive : Option Bool
  last_archived_date : Option String
  update_integration_hub : Option Bool
  archived_by : Option Int
  archived_reason : Option Int
  archived_folder_id : Option Int
  total_folder_size : Option Int
  children_exist : Option Bool
  url : Option String
  folder_root : Option Int
  department_header_id : Option Int
  show_archives : Option Bool
  permissions : Option (List String)
  item_count : Option Int
deriving DecidableEq, Repr

/-- Model of the `Folders` struct from src/document.rs: the paginated envelope
returned by the folder query endpoint. -/
structure Folders where
  current_page : Option Int
  page_size : Option Int
  total_count : Option Int
  total_pages : Option Int
  source : Option (List Folder)
  sort_by : Option String
  filter : Option String
  has_previous_page : Option Bool
  has_next_page : Option Bool
deriving DecidableEq, Repr

/-- Translation of `Folders::get_id` from src/document.rs lines 841-854: a linear
scan over the source list with a mutable `id` accumulator.  Each iteration first
applies the hardcoded "Fee in Lieu" override and then, if the folder's name
matches and the folder is active (`is_archived == Some(false)`), overwrites the
accumulator with that folder's id field. -/
def Folders.get_id (fs : Folders) (name : String) : Option Int :=
  match fs.source with
  | none => none
  | some folders =>
      folders.foldl
        (fun id folder =>
          let id1 := if name = "Fee in Lieu" then some (1884 : Int) else id
          if folder.name = name ∧ folder.is_archived = some false then folder.id else id1)
        none

/-- Fixture helper: a folder with the given name, id and archived flag, and all
other fields absent. -/
def Folder.mk0 (name : String) (id : Option Int) (archived : Option Bool) : Folder :=
  ⟨id, none, none, none, name, none, none, none, none, none, archived, none, none,
    none, none, none, none, none, none, none, none, none, none, none, none⟩

/-- Fixture helper: a folder envelope with the given source list and all page
metadata absent. -/
def Folders.mk0 (source : Option (List Folder)) : Folders :=
  ⟨none, none, none, none, source, none, none, none, none⟩

/-- Helper: eliminating the optional last element of a nonempty list never uses
the default value, so the default can be replaced. -/
theorem getLast?_cons_elim_default {α β : Type} (y : α) (ys : List α) (b c : β)
    (g : α → β) :
    ((y :: ys).getLast?).elim b g = ((y :: ys).getLast?).elim c g := by
  cases hg : (y :: ys).getLast? with
  | none => exact absurd (List.getLast?_eq_none_iff.mp hg) (by simp)
  | some f => rfl

/-- Helper: a left fold whose step ignores the accumulator is determined by the
last element of the list. -/
theorem foldl_const_step {α β : Type} (g : β → α) (l : List β) (a : α) :
    l.foldl (fun _ x => g x) a = (l.getLast?).elim a g := by
  induction l generalizing a with
  | nil => rfl
  | cons x xs ih =>
      rw [List.foldl_cons, ih (g x)]
      cases xs with
      | nil => rfl
      | cons y ys =>
          rw [List.getLast?_cons_cons]
          exact getLast?_cons_elim_default y ys (g x) a g

/-- Helper: a left fold that overwrites the accumulator with `f.id` exactly on the
elements satisfying `P` returns the id of the last element satisfying `P`, or the
initial accumulator when none does. -/
theorem foldl_last_filter (P : Folder → Prop) [DecidablePred P] (l : List Folder)
    (a : Option Int) :
    l.foldl (fun id f => if P f then f.id else id) a
      = ((l.filter (fun f => decide (P f))).getLast?).elim a Folder.id := by
  induction l generalizing a with
  | nil => rfl
  | cons x xs ih =>
      rw [List.foldl_cons, ih]
      by_cases hP : P x
      · rw [if_pos hP]
        have hd : (x :: xs).filter (fun f => decide (P f))
            = x :: xs.filter (fun f => decide (P f)) := by
          simp [List.filter_cons, hP]
        rw [hd]
        cases hfp : xs.filter (fun f => decide (P f)) with
        | nil => rfl
        | cons y ys =>
            rw [List.getLast?_cons_cons]
            exact getLast?_cons_elim_default y ys x.id a Folder.id
      · rw [if_neg hP]
        have hd : (x :: xs).filter (fun f => decide (P f))
            = xs.filter (fun f => decide (P f)) := by
          simp [List.filter_cons, hP]
        rw [hd]

/-- Helper: for any name other than the hardcoded special case, `get_id` returns
the id field of the last active folder in the source list whose name matches, and
`none` when there is no such folder (in particular when the source list is
absent). -/
theorem get_id_eq_last_filter (fs : Folders) (name : String) (h : name ≠ "Fee in Lieu") :
    fs.get_id name
      = (((fs.source.getD []).filter
            (fun f => decide (f.name = name ∧ f.is_archived = some false))).getLast?).bind
          Folder.id := by
  obtain ⟨cp, ps, tc, tp, src, sb, fl, hp, hn⟩ := fs
  cases src with
  | none => rfl
  | some l =>
      show l.foldl
          (fun id folder =>
            let id1 := if name = "Fee in Lieu" then some (1884 : Int) else id
            if folder.name = name ∧ folder.is_archived = some false then folder.id else id1)
          none
        = ((l.filter
              (fun f => decide (f.name = name ∧ f.is_archived = some false))).getLast?).bind
            Folder.id
      have hstep :
          (fun (id : Option Int) (folder : Folder) =>
            let id1 := if name = "Fee in Lieu" then some (1884 : Int) else id
            if folder.name = name ∧ folder.is_archived = some false then folder.id else id1)
          = fun (id : Option Int) (folder : Folder) =>
            if folder.name = name ∧ folder.is_archived = some false then folder.id else id := by
        funext id folder
        simp [if_neg h]
      rw [hstep, foldl_last_filter (fun f => f.name = name ∧ f.is_archived = some false) l none]
      cases (l.filter (fun f => decide (f.name = name ∧ f.is_archived = some false))).getLast? with
      | none => rfl
      | some f => rfl

/-- Fixture for the C1 counterexample: a folder envelope whose source list is
present but empty. -/
def folders_empty : Folders := Folders.mk0 (some [])

/-- C1 counterexample: on an empty collection, `get_id("Fee in Lieu")` returns
`None` rather than the hardcoded `Some(1884)`, because the override sits inside
the loop over the source list and the loop body never runs. -/
theorem get_id_fee_in_lieu_empty_none :
    folders_empty.get_id "Fee in Lieu" = none
      ∧ (Folders.mk0 none).get_id "Fee in Lieu" = none
      ∧ folders_empty.get_id "Fee in Lieu" ≠ some 1884 := by
  refine ⟨rfl, rfl, ?_⟩
  intro hcontra
  exact Option.noConfusion hcontra

/-- C1 (amended): `get_id("Fee in Lieu")` returns `Some(1884)` whenever the source
list is present and nonempty, unless the final folder of the list is itself an
active folder named "Fee in Lieu", in which case it returns that folder's id
field; with an absent or empty source list it returns `None`. -/
theorem get_id_fee_in_lieu_characterization (fs : Folders) :
    fs.get_id "Fee in Lieu"
      = match fs.source with
        | none => none
        | some l =>
            match l.getLast? with
            | none => none
            | some f =>
                if f.name = "Fee in Lieu" ∧ f.is_archived = some false then f.id
                else some 1884 := by
  obtain ⟨cp, ps, tc, tp, src, sb, fl, hp, hn⟩ := fs
  cases src with
  | none => rfl
  | some l =>
      show l.foldl
          (fun id folder =>
            let id1 := if "Fee in Lieu" = "Fee in Lieu" then some (1884 : Int) else id
            if folder.name = "Fee in Lieu" ∧ folder.is_archived = some false then folder.id
            else id1)
          none
        = match l.getLast? with
          | none => none
          | some f =>
              if f.name = "Fee in Lieu" ∧ f.is_archived = some false then f.id
              else some 1884
      have hstep :
          (fun (id : Option Int) (folder : Folder) =>
            let id1 := if "Fee in Lieu" = "Fee in Lieu" then some (1884 : Int) else id
            if folder.name = "Fee in Lieu" ∧ folder.is_archived = some false then folder.id
            else id1)
          = fun (_ : Option Int) (folder : Folder) =>
            if folder.name = "Fee in Lieu" ∧ folder.is_archived = some false then folder.id
            else some 1884 := by
        funext id folder
        simp
      rw [hstep, foldl_const_step]
      cases l.getLast? with
      | none => rfl
      | some f => rfl

/-- C2: for every name other than the hardcoded special case, `get_id` returns the
id field of the last folder in the source list whose name matches exactly and
whose archived flag is `Some(false)`; when no such folder exists — including when
every name match is archived or the source list is absent — it returns `None`. -/
theorem get_id_last_active_match (fs : Folders) (name : String)
    (h : name ≠ "Fee in Lieu") :
    fs.get_id name
      = (((fs.source.getD []).filter
            (fun f => decide (f.name = name ∧ f.is_archived = some false))).getLast?).bind
          Folder.id :=
  get_id_eq_last_filter fs name h

/-- Fixture for the C2 witness: two active folders named "A" with ids 1 and 2,
followed by an archived folder named "A" with id 3. -/
def folders_dup_a : Folders :=
  Folders.mk0 (some
    [Folder.mk0 "A" (some 1) (some false),
     Folder.mk0 "A" (some 2) (some false),
     Folder.mk0 "A" (some 3) (some true)])

/-- C2 witness: on the concrete duplicate-name collection the last active match
wins, so `get_id("A")` is `Some(2)`, and the characterization theorem applies with
its hypothesis discharged at name "A". -/
theorem get_id_last_active_match_witness :
    ("A" : String) ≠ "Fee in Lieu"
      ∧ folders_dup_a.get_id "A"
          = (((folders_dup_a.source.getD []).filter
                (fun f => decide (f.name = "A" ∧ f.is_archived = some false))).getLast?).bind
              Folder.id
      ∧ folders_dup_a.get_id "A" = some 2 := by
  refine ⟨by decide, get_id_last_active_match folders_dup_a "A" (by decide), ?_⟩
  decide

/-- Fixture for the C10 counterexample: an active folder named "Fee in Lieu" with
an absent id, followed by an unrelated active folder. -/
def folders_fee_none : Folders :=
  Folders.mk0 (some
    [Folder.mk0 "Fee in Lieu" none (some false),
     Folder.mk0 "Other" (some 5) (some false)])

/-- C10 counterexample: in `folders_fee_none` the last name-matching active folder
for "Fee in Lieu" has an absent id, yet `get_id("Fee in Lieu")` returns
`Some(1884)` rather than `None`, because the hardcoded override runs again on the
later non-matching iteration. -/
theorem get_id_verbatim_id_counterexample :
    ((folders_fee_none.source.getD []).filter
        (fun g => decide (g.name = "Fee in Lieu" ∧ g.is_archived = some false))).getLast?
        = some (Folder.mk0 "Fee in Lieu" none (some false))
      ∧ (Folder.mk0 "Fee in Lieu" none (some false)).id = none
      ∧ folders_fee_none.get_id "Fee in Lieu" = some 1884 := by
  refine ⟨by decide, rfl, by decide⟩

/-- C10 (amended): for every name other than the hardcoded "Fee in Lieu" special
case, `get_id` returns the matching folder's optional id field verbatim, so when
the last name-matching active folder has an absent id the result is `None` — even
when an earlier active folder with the same name had a present id. -/
theorem get_id_verbatim_last_id (fs : Folders) (name : String) (f : Folder)
    (h : name ≠ "Fee in Lieu")
    (hm : ((fs.source.getD []).filter
        (fun g => decide (g.name = name ∧ g.is_archived = some false))).getLast? = some f)
    (hid : f.id = none) :
    fs.get_id name = none := by
  rw [get_id_eq_last_filter fs name h, hm]
  simpa using hid

/-- Fixture for the C10 witness: an active folder named "A" with id 1 followed by
an active folder named "A" with an absent id. -/
def folders_a_none : Folders :=
  Folders.mk0 (some
    [Folder.mk0 "A" (some 1) (some false),
     Folder.mk0 "A" none (some false)])

/-- C10 witness: the amended theorem applied at the concrete collection where the
later active "A" folder has an absent id, yielding `None` despite the earlier
match with id 1. -/
theorem get_id_verbatim_last_id_witness :
    ("A" : String) ≠ "Fee in Lieu"
      ∧ ((folders_a_none.source.getD []).filter
            (fun g => decide (g.name = "A" ∧ g.is_archived = some false))).getLast?
          = some (Folder.mk0 "A" none (some false))
      ∧ (Folder.mk0 "A" none (some false)).id = none
      ∧ folders_a_none.get_id "A" = none :=
  ⟨by decide, by decide, rfl,
    get_id_verbatim_last_id folders_a_none "A" (Folder.mk0 "A" none (some false))
      (by decide) (by decide) rfl⟩

/-- Model of the `Document` struct from src/document.rs (vendor record for a
Document Center document).  The `file_size` field is an `f64` of KB in the source,
modelled as an exact rational. -/
structure Document where
  id : Int
  name : String
  description : Option String
  status : Option Int
  file_size : Option ℚ
  created_date : Option String
  created_by : Option Int
  file_uploaded_date : Option String
  file_uploaded_by : Option Int
  is_visible : Option Bool
  start_date : Option String
  end_date : Option String
  file_type : Option String
  url : Option String
  alt_text : Option String
  folder_id : Option Int
  convert_to_pdf : Option Bool
  file : Option String
  file_name : Option String
  is_archived : Option Bool
  is_chunked : Option Bool
  is_last_chunk : Option Bool
  upload_id : Option String
  last_modified_by : Option Int
  last_modified_on : Option String
  show_archives : Option Bool
  show_in_rss_feed : Option Bool
deriving DecidableEq

/-- Model of an HTTP response as consumed by the status-dispatch code of the
per-item operations: the numeric status code, the result of JSON-decoding the
body into the expected value (`none` when decoding fails, which the source turns
into a propagated reqwest error), and the raw body text. -/
structure Response where
  status : Nat
  json : Option String
  text : String
deriving DecidableEq

/-- Translation of the pure content of `Document::update` from src/document.rs
lines 149-190: it clones the document, mutates the clone according to `command`
("archive" sets `is_archived` to `Some(true)`, "draft" sets `status` to
`Some(10)`, anything else is a no-op), PUTs the serialized clone to
`{base_url}/{id}`, and dispatches on the response status: 200 parses the JSON
body, any other status returns the raw body text as the `Ok` value.  Transport
and body serialization are outside the model; the function returns the endpoint,
the mutated clone and the status dispatch applied to the supplied response.  The
original document is a value and is never mutated. -/
def Document.update (d : Document) (base_url : String) (command : String)
    (res : Response) : String × Document × Except LinkError String :=
  let doc :=
    if command = "archive" then { d with is_archived := some true }
    else if command = "draft" then { d with status := some (10 : Int) }
    else d
  let endpoint := base_url ++ "/" ++ toString d.id
  let result : Except LinkError String :=
    if res.status = 200 then
      match res.json with
      | some v => Except.ok v
      | none => Except.error LinkError.HttpError
    else Except.ok res.text
  (endpoint, doc, result)

/-- Translation of the pure content of `Document::delete` from src/document.rs
lines 193-214: it sends DELETE to `{base_url}/{id}` and dispatches on the
response status exactly as `Document::update` does: 200 parses the JSON body,
any other status returns the raw body text as the `Ok` value. -/
def Document.delete (d : Document) (base_url : String) (res : Response) :
    String × Except LinkError String :=
  let endpoint := base_url ++ "/" ++ toString d.id
  let result : Except LinkError String :=
    if res.status = 200 then
      match res.json with
      | some v => Except.ok v
      | none => Except.error LinkError.HttpError
    else Except.ok res.text
  (endpoint, result)

/-- C4: the per-item update (PUT to `{base_url}/{id}`) and delete (DELETE to
`{base_url}/{id}`) return `Ok` in both status branches: on a 200 response the
JSON-parsed body, and on any non-200 status the raw response body text — a
non-200 response never produces an `Err` from either operation. -/
theorem update_delete_ok_both_branches (d : Document) (u cmd v : String)
    (r1 r2 : Response) (h1 : r1.status = 200) (hj : r1.json = some v)
    (h2 : r2.status ≠ 200) :
    (Document.update d u cmd r1).2.2 = Except.ok v
      ∧ (Document.delete d u r1).2 = Except.ok v
      ∧ (Document.update d u cmd r2).2.2 = Except.ok r2.text
      ∧ (Document.delete d u r2).2 = Except.ok r2.text
      ∧ (Document.update d u cmd r2).1 = u ++ "/" ++ toString d.id
      ∧ (Document.delete d u r2).1 = u ++ "/" ++ toString d.id := by
  refine ⟨?_, ?_, ?_, ?_, rfl, rfl⟩ <;>
    simp [Document.update, Document.delete, h1, hj, if_neg h2]

/-- Fixture: a document named "doc" with id 7 and all optional fields absent. -/
def doc7 : Document :=
  ⟨7, "doc", none, none, none, none, none, none, none, none, none, none, none,
    none, none, none, none, none, none, none, none, none, none, none, none, none,
    none⟩

/-- C4 witness: the branch theorem applied to document id 7 with a 200 response
whose body parses to "parsed" and a 500 response with raw body "server error". -/
theorem update_delete_ok_both_branches_witness :
    (Document.update doc7 "base" "draft" ⟨200, some "parsed", "raw"⟩).2.2
        = Except.ok "parsed"
      ∧ (Document.delete doc7 "base" ⟨200, some "parsed", "raw"⟩).2
        = Except.ok "parsed"
      ∧ (Document.update doc7 "base" "draft" ⟨500, none, "server error"⟩).2.2
        = Except.ok "server error"
      ∧ (Document.delete doc7 "base" ⟨500, none, "server error"⟩).2
        = Except.ok "server error"
      ∧ (Document.update doc7 "base" "draft" ⟨500, none, "server error"⟩).1
        = "base" ++ "/" ++ toString (7 : Int)
      ∧ (Document.delete doc7 "base" ⟨500, none, "server error"⟩).1
        = "base" ++ "/" ++ toString (7 : Int) :=
  update_delete_ok_both_branches doc7 "base" "draft" "parsed"
    ⟨200, some "parsed", "raw"⟩ ⟨500, none, "server error"⟩ rfl rfl (by decide)

/-- C7: the clone mutated by the per-item update satisfies: command "archive"
sets `is_archived` to `Some(true)` and leaves every other field equal to the
original; command "draft" sets `status` to `Some(10)` and leaves every other
field equal; any other command string leaves the whole document unchanged and is
not an error.  The original document is a pure value in the model, so it is never
mutated. -/
theorem update_command_mutation (d : Document) (u cmd : String) (r : Response)
    (h1 : cmd ≠ "archive") (h2 : cmd ≠ "draft") :
    (Document.update d u "archive" r).2.1 = { d with is_archived := some true }
      ∧ (Document.update d u "draft" r).2.1 = { d with status := some (10 : Int) }
      ∧ (Document.update d u cmd r).2.1 = d := by
  refine ⟨rfl, rfl, ?_⟩
  simp [Document.update, if_neg h1, if_neg h2]

/-- C7 witness: the mutation theorem applied to the concrete document `doc7` and
the unrecognized command "publish". -/
theorem update_command_mutation_witness :
    (Document.update doc7 "base" "archive" ⟨200, some "v", "t"⟩).2.1
        = { doc7 with is_archived := some true }
      ∧ (Document.update doc7 "base" "draft" ⟨200, some "v", "t"⟩).2.1
        = { doc7 with status := some (10 : Int) }
      ∧ (Document.update doc7 "base" "publish" ⟨200, some "v", "t"⟩).2.1 = doc7 :=
  update_command_mutation doc7 "base" "publish" ⟨200, some "v", "t"⟩
    (by decide) (by decide)

/-- Model of one entry of the batch in `FileNames::upload` from src/file.rs: the
file name (a key of the `names` HashMap) together with the response its POST
receives.  File reading, base64 encoding and the request body are outside the
model, and the nondeterministic HashMap iteration order is modelled by the list
order. -/
structure UploadItem where
  name : String
  response : Response
deriving DecidableEq

/-- Translation of the response-handling loop of `FileNames::upload` from
src/file.rs lines 63-120: for each item, a 200 or 201 status pushes the
JSON-parsed response body onto the success list (a parse failure propagates as a
fatal reqwest error via the question-mark operator), and any other status is
logged and skipped; the function returns `Ok` with the accumulated list. -/
def FileNames.upload (items : List UploadItem) : Except LinkError (List String) :=
  items.foldlM
    (fun rec item =>
      if item.response.status = 200 ∨ item.response.status = 201 then
        match item.response.json with
        | some v => Except.ok (rec ++ [v])
        | none => Except.error LinkError.HttpError
      else Except.ok rec)
    []

/-- Helper: the upload fold with an arbitrary starting accumulator appends the
parsed bodies of the successful items, provided every 200/201 response has a
parseable body. -/
theorem upload_foldlM_eq (items : List UploadItem) (acc : List String)
    (h : ∀ i ∈ items,
      (i.response.status = 200 ∨ i.response.status = 201) → (i.response.json).isSome) :
    items.foldlM
        (fun rec item =>
          if item.response.status = 200 ∨ item.response.status = 201 then
            match item.response.json with
            | some v => Except.ok (rec ++ [v])
            | none => Except.error LinkError.HttpError
          else Except.ok rec)
        acc
      = Except.ok (acc ++ items.filterMap
          (fun i =>
            if i.response.status = 200 ∨ i.response.status = 201 then i.response.json
            else none)) := by
  induction items generalizing acc with
  | nil =>
      simp only [List.foldlM_nil, List.filterMap_nil, List.append_nil]
      rfl
  | cons i is ih =>
      have hi := h i (List.mem_cons_self i is)
      have his : ∀ j ∈ is,
          (j.response.status = 200 ∨ j.response.status = 201) → (j.response.json).isSome :=
        fun j hj => h j (List.mem_cons_of_mem i hj)
      by_cases hs : i.response.status = 200 ∨ i.response.status = 201
      · obtain ⟨v, hv⟩ := Option.isSome_iff_exists.mp (hi hs)
        rw [List.foldlM_cons]
        simp only [if_pos hs, hv]
        rw [List.filterMap_cons]
        simp only [if_pos hs, hv]
        have := ih (acc ++ [v]) his
        rw [show (Except.ok (acc ++ [v]) : Except LinkError (List String)) >>= _
              = _ from rfl] at *
        simpa [List.append_assoc] using this
      · rw [List.foldlM_cons]
        simp only [if_neg hs]
        rw [List.filterMap_cons]
        simp only [if_neg hs]
        simpa using ih acc his

/-- C3: in a batch upload, an item whose POST returns a status other than 200 or
201 is skipped: the returned success list is exactly the parsed responses of the
items that returned 200 or 201, failing items are absent from it, and the batch
still returns `Ok` rather than aborting with a fatal error.  The hypothesis says
each successful response has a parseable body, which the claim presupposes by
speaking of their parsed responses. -/
theorem upload_skips_failed_items (items : List UploadItem)
    (h : ∀ i ∈ items,
      (i.response.status = 200 ∨ i.response.status = 201) → (i.response.json).isSome) :
    FileNames.upload items
      = Except.ok (items.filterMap
          (fun i =>
            if i.response.status = 200 ∨ i.response.status = 201 then i.response.json
            else none)) := by
  unfold FileNames.upload
  simpa using upload_foldlM_eq items [] h

/-- Fixture for the C3 witness: a batch of three items where the second POST
returns HTTP 500 and the others succeed. -/
def batch3 : List UploadItem :=
  [⟨"one", ⟨200, some "r1", "t1"⟩⟩,
   ⟨"two", ⟨500, none, "server error"⟩⟩,
   ⟨"three", ⟨201, some "r3", "t3"⟩⟩]

/-- C3 witness: the batch theorem applied to the three-item batch with a 500 in
the middle yields a two-element success list and no fatal error. -/
theorem upload_skips_failed_items_witness :
    FileNames.upload batch3
        = Except.ok (batch3.filterMap
            (fun i =>
              if i.response.status = 200 ∨ i.response.status = 201 then i.response.json
              else none))
      ∧ batch3.filterMap
          (fun i =>
            if i.response.status = 200 ∨ i.response.status = 201 then i.response.json
            else none)
        = ["r1", "r3"] :=
  ⟨upload_skips_failed_items batch3 (by decide), by decide⟩

/-- Model of the `User` struct from src/authorize.rs: the immutable credential
with five required string fields. -/
structure User where
  api_key : String
  partition : String
  name : String
  password : String
  host : String
deriving DecidableEq

/-- Model of the `UserBuilder` struct from src/authorize.rs: one optional slot per
credential field, each filled by a setter that stores the supplied value. -/
structure UserBuilder where
  api_key : Option String
  partition : Option String
  name : Option String
  password : Option String
  host : Option String
deriving DecidableEq

/-- Translation of `UserBuilder::build` from src/authorize.rs lines 132-176: it
first accumulates the names of the absent fields in the fixed order api_key,
partition, name, password, host, then either constructs the `User` from the five
present values or fails with `UserBuildError` carrying that list. -/
def UserBuilder.build (b : UserBuilder) : Except LinkError User :=
  let fields :=
    (if b.api_key = none then ["api_key"] else [])
    ++ (if b.partition = none then ["partition"] else [])
    ++ (if b.name = none then ["name"] else [])
    ++ (if b.password = none then ["password"] else [])
    ++ (if b.host = none then ["host"] else [])
  match b.api_key with
  | some api_key =>
      match b.partition with
      | some partition =>
          match b.name with
          | some name =>
              match b.password with
              | some password =>
                  match b.host with
                  | some host => Except.ok ⟨api_key, partition, name, password, host⟩
                  | none => Except.error (LinkError.UserBuildError fields)
              | none => Except.error (LinkError.UserBuildError fields)
          | none => Except.error (LinkError.UserBuildError fields)
      | none => Except.error (LinkError.UserBuildError fields)
  | none => Except.error (LinkError.UserBuildError fields)

/-- C5: `build()` succeeds exactly when all five credential fields are set, and
round-trips the supplied values; with any field omitted it fails with a payload
that is exactly the list of omitted field names restricted from the fixed order
(api_key, partition, name, password, host).  Setter order cannot matter because
`build` depends only on the final builder state quantified here. -/
theorem user_builder_build_spec (b : UserBuilder) (a p n pw hs : String)
    (hmiss : b.api_key = none ∨ b.partition = none ∨ b.name = none
      ∨ b.password = none ∨ b.host = none) :
    UserBuilder.build ⟨some a, some p, some n, some pw, some hs⟩
        = Except.ok ⟨a, p, n, pw, hs⟩
      ∧ b.build
        = Except.error (LinkError.UserBuildError
            ((if b.api_key = none then ["api_key"] else [])
              ++ (if b.partition = none then ["partition"] else [])
              ++ (if b.name = none then ["name"] else [])
              ++ (if b.password = none then ["password"] else [])
              ++ (if b.host = none then ["host"] else []))) := by
  refine ⟨rfl, ?_⟩
  obtain ⟨ak, pt, nm, pwd, ht⟩ := b
  unfold UserBuilder.build
  rcases hmiss with hm | hm | hm | hm | hm <;> simp_all <;>
    cases ak <;> cases pt <;> cases nm <;> cases pwd <;> cases ht <;> simp_all

/-- C5 witness: the build theorem applied to a builder missing api_key, name and
host, whose failure payload lists exactly those fields in the fixed order, and a
fully supplied builder that round-trips its values. -/
theorem user_builder_build_spec_witness :
    UserBuilder.build ⟨some "k", some "1", some "u", some "w", some "h"⟩
        = Except.ok ⟨"k", "1", "u", "w", "h"⟩
      ∧ UserBuilder.build ⟨none, some "1", none, some "w", none⟩
        = Except.error (LinkError.UserBuildError ["api_key", "name", "host"]) := by
  have h := user_builder_build_spec ⟨none, some "1", none, some "w", none⟩
    "k" "1" "u" "w" "h" (Or.inl rfl)
  exact ⟨h.1, by simpa using h.2⟩

/-- Model of the `DocQuery` struct from src/document.rs: the six optional
OData-style query parameters. -/
structure DocQuery where
  top : Option Int
  skip : Option Int
  filter : Option String
  orderby : Option String
  inlinecount : Option String
  expand : Option String
deriving DecidableEq

/-- Translation of `DocQuery::new` from src/document.rs: all fields start
absent. -/
def DocQuery.new : DocQuery := ⟨none, none, none, none, none, none⟩

/-- Translation of the `args` vector built at the start of `DocQuery::query`
(src/document.rs lines 638-657): one `%24`-prefixed key=value string per present
field, pushed in the fixed order top, skip, filter, orderby, inlinecount,
expand. -/
def DocQuery.args (q : DocQuery) : List String :=
  (match q.top with
    | some arg => ["%24top=" ++ toString arg]
    | none => [])
  ++ (match q.skip with
    | some arg => ["%24skip=" ++ toString arg]
    | none => [])
  ++ (match q.filter with
    | some arg => ["%24filter=" ++ arg]
    | none => [])
  ++ (match q.orderby with
    | some arg => ["%24orderby=" ++ arg]
    | none => [])
  ++ (match q.inlinecount with
    | some arg => ["%24inlinecount=" ++ arg]
    | none => [])
  ++ (match q.expand with
    | some arg => ["%24expand=" ++ arg]
    | none => [])

/-- Translation of the serialization loop of `DocQuery::query` (src/document.rs
lines 658-669): starting from "?", the first argument is appended bare and every
later argument is appended with an "&" prefix, tracked by a counter.  The
function is pure: it only reads the struct. -/
def DocQuery.query (q : DocQuery) : String :=
  (q.args.foldl
    (fun (acc : String × Nat) arg =>
      (if acc.2 = 0 then acc.1 ++ arg else acc.1 ++ ("&" ++ arg), acc.2 + 1))
    ("?", 0)).1

/-- Specification-side serialization of a list of arguments joined by "&". -/
def joinAmp : List String → String
  | [] => ""
  | [a] => a
  | a :: b :: rest => a ++ "&" ++ joinAmp (b :: rest)

/-- Helper: the suffix contributed by the arguments after the first, each with an
"&" prefix. -/
def ampTail : List String → String
  | [] => ""
  | a :: rest => "&" ++ a ++ ampTail rest

/-- Helper: once the counter is positive, the serialization loop appends an
"&"-prefixed copy of every remaining argument. -/
theorem foldl_query_tail (l : List String) (s : String) (n : Nat) (h : n ≠ 0) :
    (l.foldl
        (fun (acc : String × Nat) arg =>
          (if acc.2 = 0 then acc.1 ++ arg else acc.1 ++ ("&" ++ arg), acc.2 + 1))
        (s, n)).1
      = s ++ ampTail l := by
  induction l generalizing s n with
  | nil => simp [ampTail, String.append_empty]
  | cons a rest ih =>
      rw [List.foldl_cons]
      simp only [if_neg h]
      rw [ih (s ++ ("&" ++ a)) (n + 1) (Nat.succ_ne_zero n)]
      simp [ampTail, String.append_assoc]

/-- Helper: joining a nonempty list with "&" is the head followed by the
"&"-prefixed tail. -/
theorem joinAmp_cons (a : String) (l : List String) :
    joinAmp (a :: l) = a ++ ampTail l := by
  induction l generalizing a with
  | nil => simp [joinAmp, ampTail, String.append_empty]
  | cons b rest ih =>
      rw [show joinAmp (a :: b :: rest) = a ++ "&" ++ joinAmp (b :: rest) from rfl, ih b]
      simp [ampTail, String.append_assoc]

/-- C6: `query()` is a pure function of the struct; it returns exactly "?" when
no field is set, and otherwise "?" followed by the present fields serialized in
the fixed order top, skip, filter, orderby, inlinecount, expand, each as a
`%24`-prefixed key=value pair, joined by "&" and omitting absent fields; in
particular top=5 with filter="FolderId eq 7" serializes to
"?%24top=5&%24filter=FolderId eq 7". -/
theorem query_serialization (q : DocQuery) :
    q.query = "?" ++ joinAmp q.args
      ∧ DocQuery.new.query = "?"
      ∧ (DocQuery.mk (some 5) none (some "FolderId eq 7") none none none).query
        = "?%24top=5&%24filter=FolderId eq 7" := by
  refine ⟨?_, by decide, by decide⟩
  unfold DocQuery.query
  cases hargs : q.args with
  | nil => simp [joinAmp, String.append_empty]
  | cons a rest =>
      rw [List.foldl_cons]
      show (rest.foldl
          (fun (acc : String × Nat) arg =>
            (if acc.2 = 0 then acc.1 ++ arg else acc.1 ++ ("&" ++ arg), acc.2 + 1))
          ("?" ++ a, 1)).1
        = "?" ++ joinAmp (a :: rest)
      rw [foldl_query_tail rest ("?" ++ a) 1 Nat.one_ne_zero, joinAmp_cons]
      simp [String.append_assoc]

/-- Model of the `Documents` struct from src/document.rs: the paginated envelope
returned by the document query endpoint. -/
structure Documents where
  current_page : Option Int
  page_size : Option Int
  total_count : Option Int
  total_pages : Option Int
  source : Option (List Document)
  sort_by : Option String
  filter : Option String
  has_previous_page : Option Bool
  has_next_page : Option Bool
deriving DecidableEq

/-- Translation of `Documents::total_size` from src/document.rs lines 436-446: a
running sum over the source list that adds each present `file_size` and skips
absent ones; an absent source list leaves the sum at zero. -/
def Documents.total_size (ds : Documents) : ℚ :=
  match ds.source with
  | none => 0
  | some docs =>
      docs.foldl
        (fun size doc =>
          match doc.file_size with
          | some value => size + value
          | none => size)
        0

/-- Helper: the running-sum fold equals the initial value plus the sum of the
present file sizes. -/
theorem foldl_size_eq_sum (l : List Document) (a : ℚ) :
    l.foldl
        (fun size doc =>
          match doc.file_size with
          | some value => size + value
          | none => size)
        a
      = a + (l.filterMap Document.file_size).sum := by
  induction l generalizing a with
  | nil => simp
  | cons d rest ih =>
      rw [List.foldl_cons]
      cases hfs : d.file_size with
      | none => simp [ih, List.filterMap_cons, hfs]
      | some v =>
          simp only [hfs]
          rw [ih (a + v), List.filterMap_cons]
          simp [hfs, add_assoc]

/-- Fixture helper: a document with the given name and optional file size, id 0
and every other field absent. -/
def Document.mk0 (name : String) (sz : Option ℚ) : Document :=
  ⟨0, name, none, none, sz, none, none, none, none, none, none, none, none, none,
    none, none, none, none, none, none, none, none, none, none, none, none, none⟩

/-- Fixture helper: a document envelope with the given source list and all page
metadata absent. -/
def Documents.mk0 (source : Option (List Document)) : Documents :=
  ⟨none, none, none, none, source, none, none, none, none⟩

/-- Fixture for the C8 examples: a page with sizes 10.5, absent and 3.25. -/
def docs_sizes : Documents :=
  Documents.mk0 (some
    [Document.mk0 "a" (some 10.5), Document.mk0 "b" none, Document.mk0 "c" (some 3.25)])

/-- C8: `total_size` returns the sum of the present `file_size` values of the
documents in the page, absent sizes contributing zero; sizes 10.5, absent, 3.25
total 13.75, and an absent or empty source list totals 0. -/
theorem total_size_eq_sum (ds : Documents) :
    ds.total_size = ((ds.source.getD []).filterMap Document.file_size).sum
      ∧ docs_sizes.total_size = 13.75
      ∧ (Documents.mk0 none).total_size = 0
      ∧ (Documents.mk0 (some [])).total_size = 0 := by
  refine ⟨?_, ?_, rfl, rfl⟩
  · obtain ⟨cp, ps, tc, tp, src, sb, fl, hp, hn⟩ := ds
    cases src with
    | none => simp [Documents.total_size]
    | some docs =>
        show docs.foldl
            (fun size doc =>
              match doc.file_size with
              | some value => size + value
              | none => size)
            0
          = (((some docs).getD []).filterMap Document.file_size).sum
        rw [foldl_size_eq_sum]
        simp
  · show ((0 : ℚ) + 10.5) + 3.25 = 13.75
    norm_num

/-- Model of the `FolderSize` struct from src/report.rs: a folder name together
with its total storage in KB (an `f64` in the source, modelled as an exact
rational). -/
structure FolderSize where
  folder : String
  size : ℚ
deriving DecidableEq

/-- Model of the `FolderSizes` struct from src/report.rs: the list of size
samples. -/
structure FolderSizes where
  records : List FolderSize
deriving DecidableEq

/-- Model of the `ReportItem` struct from src/report.rs: a report row with the
human-readable size string and the percentage of the maximum sample. -/
structure ReportItem where
  folder : String
  size : String
  percent : ℚ
deriving DecidableEq

/-- Model of the `ReportItems` struct from src/report.rs. -/
structure ReportItems where
  records : List ReportItem
deriving DecidableEq

/-- Outcome type distinguishing the three ways a Rust computation can end: a
normal value, a returned `Err`, or a panic (index out of bounds, `unwrap` on an
`Err`, and the like). -/
inductive RunResult (α : Type) where
  | ok (value : α)
  | error (e : LinkError)
  | panicked (msg : String)
deriving DecidableEq

/-- Report whether a run ended in a returned `Err` (as opposed to a normal value
or a panic). -/
def RunResult.isError {α : Type} : RunResult α → Bool
  | RunResult.error _ => true
  | _ => false

/-- Model of the external byte_unit call `Byte::from_unit(size, ByteUnit::KB)`
used by `ReportItem::new`: it fails on a negative (or non-finite) value and
otherwise yields the quantity in bytes. -/
def byte_unit_from_kb (size : ℚ) : Except LinkError ℚ :=
  if size < 0 then Except.error LinkError.ByteError else Except.ok (size * 1000)

/-- Model of the external byte_unit rendering
`get_appropriate_unit(false).to_string()`: no claim depends on the rendered
text, so the byte quantity is printed directly. -/
def byte_unit_display (bytes : ℚ) : String := toString bytes

/-- Translation of `ReportItem::new` from src/report.rs lines 69-79: convert the
KB size through byte_unit (propagating its error with the question-mark
operator) and divide the size by the maximum to obtain the percentage.  (In the
model rational division by zero yields 0 where `f64` would yield a non-finite
value; no claim depends on that case.) -/
def ReportItem.new (folder : String) (size : ℚ) (total_size : ℚ) :
    Except LinkError ReportItem :=
  match byte_unit_from_kb size with
  | Except.error e => Except.error e
  | Except.ok sz => Except.ok ⟨folder, byte_unit_display sz, size / total_size⟩

/-- Translation of the record-building loop of `TryFrom<FolderSizes>` from
src/report.rs lines 108-113: each row is built with `ReportItem::new(..).unwrap()`,
so a row whose conversion fails panics instead of propagating the error. -/
def build_report_records (max_size : ℚ) : List FolderSize → RunResult (List ReportItem)
  | [] => RunResult.ok []
  | item :: rest =>
      match ReportItem.new item.folder item.size max_size with
      | Except.error _ => RunResult.panicked "called unwrap on an Err value"
      | Except.ok r =>
          match build_report_records max_size rest with
          | RunResult.ok rs => RunResult.ok (r :: rs)
          | RunResult.error e => RunResult.error e
          | RunResult.panicked m => RunResult.panicked m

/-- Translation of `TryFrom<FolderSizes> for ReportItems` from src/report.rs
lines 96-116: collect the sizes, sort them ascending, take
`sizes[sizes.len() - 1]` as the maximum — which panics with an index/underflow
error when the record list is empty — and build one report row per record with
`unwrap`. -/
def ReportItems.try_from (folder_sizes : FolderSizes) : RunResult ReportItems :=
  let sizes :=
    List.mergeSort (folder_sizes.records.map FolderSize.size) (fun a b => decide (a ≤ b))
  match sizes.getLast? with
  | none => RunResult.panicked "attempt to subtract with overflow"
  | some max_size =>
      match build_report_records max_size folder_sizes.records with
      | RunResult.ok records => RunResult.ok ⟨records⟩
      | RunResult.error e => RunResult.error e
      | RunResult.panicked m => RunResult.panicked m

/-- C9: evaluation of the conversion at its failing inputs.  On an empty sample
set the code panics on the `sizes[sizes.len() - 1]` index underflow instead of
returning an error result, and on a record with a negative size the code panics
in `ReportItem::new(..).unwrap()` instead of propagating the conversion error —
in both cases no report and no error result is produced, contradicting the
claim's (and the `TryFrom` signature's) stated error return. -/
theorem report_try_from_panics_not_error :
    ReportItems.try_from ⟨[]⟩ = RunResult.panicked "attempt to subtract with overflow"
      ∧ (ReportItems.try_from ⟨[]⟩).isError = false
      ∧ ReportItems.try_from ⟨[⟨"X", -2⟩]⟩
        = RunResult.panicked "called unwrap on an Err value"
      ∧ (ReportItems.try_from ⟨[⟨"X", -2⟩]⟩).isError = false := by
  have h1 : ReportItems.try_from ⟨[]⟩
      = RunResult.panicked "attempt to subtract with overflow" := by
    unfold ReportItems.try_from
    simp [List.mergeSort_nil]
  have h2 : ReportItems.try_from ⟨[⟨"X", -2⟩]⟩
      = RunResult.panicked "called unwrap on an Err value" := by
    unfold ReportItems.try_from
    have hneg : ((-2 : ℚ) < 0) := by norm_num
    simp [List.mergeSort_singleton, build_report_records, ReportItem.new,
      byte_unit_from_kb, hneg]
  refine ⟨h1, ?_, h2, ?_⟩
  · rw [h1]; rfl
  · rw [h2]; rfl

end LinkBuilder
